import Mathlib

/-!
Verification of the request admission / de-duplication layer of the
azure-openai-proxy service (`app.py`): request fingerprinting
(`get_cache_key`), the fixed-window rate limiter (`check_rate_limit`),
the time-boxed response cache (`get_cached_response` / `cache_response`),
the bounded-retry executor (`create_chat_completion`, a tenacity `@retry`
wrapper), the streaming generator (`stream_chat_response`) and the
orchestrating HTTP handler (`chat_completions`).

Time is modelled in integral time units (`Nat`); within one handler
invocation the clock is read once.  Machine floats appearing in the
source (temperatures, wall-clock) are carried as opaque scalars: a JSON
number is represented by its serialized literal.
-/

/-- JSON values as the proxy manipulates them.  A number is carried as its
serialized decimal literal (Python renders `1000` as `"1000"`, `0.7` as
`"0.7"`); the claims under study only ever compare numbers for equality,
never compute with them. -/
inductive Json where
  | null : Json
  | bool (b : Bool) : Json
  | num (lit : String) : Json
  | str (s : String) : Json
  | arr (elems : List Json) : Json
  | obj (fields : List (String × Json)) : Json

/-- Lower-case hexadecimal digit, as used by `hashlib.md5(...).hexdigest()`
and by `json` `\uXXXX` escapes. -/
def hexDigitChar (n : Nat) : Char :=
  if n < 10 then Char.ofNat (48 + n) else Char.ofNat (87 + n)

/-- Four-digit hexadecimal rendering of a code unit (for `\uXXXX`). -/
def u4 (n : Nat) : String :=
  String.mk [hexDigitChar (n / 4096 % 16), hexDigitChar (n / 256 % 16),
             hexDigitChar (n / 16 % 16), hexDigitChar (n % 16)]

/-- Escape of one character inside a JSON string literal, following
CPython `json` with its default `ensure_ascii=True`: `"` and `\` are
backslash-escaped, the named control escapes are used, every other
character outside `0x20`–`0x7e` becomes `\uXXXX` (a surrogate pair
beyond the BMP). -/
def escapeChar (c : Char) : String :=
  let n := c.toNat
  if c = '"' then "\\\""
  else if c = '\\' then "\\\\"
  else if c = '\n' then "\\n"
  else if c = '\t' then "\\t"
  else if c = '\r' then "\\r"
  else if n = 8 then "\\b"
  else if n = 12 then "\\f"
  else if n < 32 then "\\u" ++ u4 n
  else if n < 127 then String.singleton c
  else if n < 65536 then "\\u" ++ u4 n
  else "\\u" ++ u4 (55296 + (n - 65536) / 1024) ++ "\\u" ++ u4 (56320 + (n - 65536) % 1024)

/-- JSON string literal rendering (quotes plus escapes). -/
def renderJStr (s : String) : String :=
  "\"" ++ String.join (s.data.map escapeChar) ++ "\""

/-- Ordering of rendered object items by their key, the order produced by
CPython's `sorted(dct.items())` under `sort_keys=True` (values are only
compared on equal keys, which cannot happen for dictionary items). -/
def fieldLe (a b : String × String) : Prop := a.1 ≤ b.1

instance : DecidableRel fieldLe := fun a b => inferInstanceAs (Decidable (a.1 ≤ b.1))

instance : IsTotal (String × String) fieldLe := ⟨fun a b => le_total a.1 b.1⟩

instance : IsTrans (String × String) fieldLe := ⟨fun _ _ _ => le_trans⟩

mutual

/-- Serialization of a JSON value, parametrized like CPython `json.dumps`:
`sk` is `sort_keys`, `isep`/`ksep` are the item and key separators
(`json.dumps` defaults to `", "`/`": "`; pydantic's `model_dump_json`
emits compact `","`/`":"`).  Object fields are rendered and then, when
`sk` is set, ordered by key. -/
def dumpsJ (sk : Bool) (isep ksep : String) : Json → String
  | .null => "null"
  | .bool b => cond b "true" "false"
  | .num lit => lit
  | .str s => renderJStr s
  | .arr xs => "[" ++ String.intercalate isep (dumpsList sk isep ksep xs) ++ "]"
  | .obj fs =>
      let rendered := dumpsFields sk isep ksep fs
      let items := if sk then List.insertionSort fieldLe rendered else rendered
      "\x7b" ++ String.intercalate isep (items.map (fun p => renderJStr p.1 ++ ksep ++ p.2)) ++ "\x7d"

/-- Pointwise serialization of the elements of a JSON array. -/
def dumpsList (sk : Bool) (isep ksep : String) : List Json → List String
  | [] => []
  | x :: xs => dumpsJ sk isep ksep x :: dumpsList sk isep ksep xs

/-- Serialization of the values of an object's fields, keeping the keys. -/
def dumpsFields (sk : Bool) (isep ksep : String) : List (String × Json) → List (String × String)
  | [] => []
  | (k, v) :: fs => (k, dumpsJ sk isep ksep v) :: dumpsFields sk isep ksep fs

end

/-- `json.dumps(value, sort_keys=True)` with the default separators, as
used in `get_cache_key`. -/
def json_dumps_sorted (j : Json) : String := dumpsJ true ", " ": " j

/-- UTF-8 encoding of one code point. -/
def utf8Bytes (c : Nat) : List Nat :=
  if c < 128 then [c]
  else if c < 2048 then [192 + c / 64, 128 + c % 64]
  else if c < 65536 then [224 + c / 4096, 128 + c / 64 % 64, 128 + c % 64]
  else [240 + c / 262144, 128 + c / 4096 % 64, 128 + c / 64 % 64, 128 + c % 64]

/-- `str.encode()`: UTF-8 bytes of a string. -/
def utf8Encode (s : String) : List Nat :=
  (s.data.map (fun c => utf8Bytes c.toNat)).foldr (· ++ ·) []

/- ### MD5 (`hashlib.md5`), RFC 1321, over byte lists, words as `Nat % 2^32` -/

/-- 2^32, the word modulus of MD5. -/
def m32 : Nat := 4294967296

/-- Left rotation of a 32-bit word. -/
def rotl32 (x n : Nat) : Nat := (x * 2 ^ n + x / 2 ^ (32 - n)) % m32

/-- MD5 round function F (rounds 0–15). -/
def md5F (b c d : Nat) : Nat := (b.land c).lor ((b.xor 4294967295).land d)

/-- MD5 round function G (rounds 16–31). -/
def md5G (b c d : Nat) : Nat := (d.land b).lor ((d.xor 4294967295).land c)

/-- MD5 round function H (rounds 32–47). -/
def md5H (b c d : Nat) : Nat := (b.xor c).xor d

/-- MD5 round function I (rounds 48–63). -/
def md5I (b c d : Nat) : Nat := c.xor (b.lor (d.xor 4294967295))

/-- MD5 sine-derived constant table `K`. -/
def md5K : List Nat := [
  0xd76aa478, 0xe8c7b756, 0x242070db, 0xc1bdceee, 0xf57c0faf, 0x4787c62a, 0xa8304613, 0xfd469501,
  0x698098d8, 0x8b44f7af, 0xffff5bb1, 0x895cd7be, 0x6b901122, 0xfd987193, 0xa679438e, 0x49b40821,
  0xf61e2562, 0xc040b340, 0x265e5a51, 0xe9b6c7aa, 0xd62f105d, 0x02441453, 0xd8a1e681, 0xe7d3fbc8,
  0x21e1cde6, 0xc33707d6, 0xf4d50d87, 0x455a14ed, 0xa9e3e905, 0xfcefa3f8, 0x676f02d9, 0x8d2a4c8a,
  0xfffa3942, 0x8771f681, 0x6d9d6122, 0xfde5380c, 0xa4beea44, 0x4bdecfa9, 0xf6bb4b60, 0xbebfbc70,
  0x289b7ec6, 0xeaa127fa, 0xd4ef3085, 0x04881d05, 0xd9d4d039, 0xe6db99e5, 0x1fa27cf8, 0xc4ac5665,
  0xf4292244, 0x432aff97, 0xab9423a7, 0xfc93a039, 0x655b59c3, 0x8f0ccc92, 0xffeff47d, 0x85845dd1,
  0x6fa87e4f, 0xfe2ce6e0, 0xa3014314, 0x4e0811a1, 0xf7537e82, 0xbd3af235, 0x2ad7d2bb, 0xeb86d391]

/-- MD5 per-round left-rotation amounts. -/
def md5S : List Nat := [
  7, 12, 17, 22, 7, 12, 17, 22, 7, 12, 17, 22, 7, 12, 17, 22,
  5, 9, 14, 20, 5, 9, 14, 20, 5, 9, 14, 20, 5, 9, 14, 20,
  4, 11, 16, 23, 4, 11, 16, 23, 4, 11, 16, 23, 4, 11, 16, 23,
  6, 10, 15, 21, 6, 10, 15, 21, 6, 10, 15, 21, 6, 10, 15, 21]

/-- One MD5 operation (step `i` of 64) on state `(a, b, c, d)` with message
block `M` of 16 words. -/
def md5Step (M : List Nat) (st : Nat × Nat × Nat × Nat) (i : Nat) : Nat × Nat × Nat × Nat :=
  let (a, b, c, d) := st
  let fg : Nat × Nat :=
    if i < 16 then (md5F b c d, i)
    else if i < 32 then (md5G b c d, (5 * i + 1) % 16)
    else if i < 48 then (md5H b c d, (3 * i + 5) % 16)
    else (md5I b c d, (7 * i) % 16)
  let f := (fg.1 + a + md5K.getD i 0 + M.getD fg.2 0) % m32
  (d, (b + rotl32 f (md5S.getD i 0)) % m32, b, c)

/-- MD5 compression of one 16-word block into the running state. -/
def md5Block (st : Nat × Nat × Nat × Nat) (M : List Nat) : Nat × Nat × Nat × Nat :=
  let r := (List.range 64).foldl (md5Step M) st
  ((st.1 + r.1) % m32, (st.2.1 + r.2.1) % m32, (st.2.2.1 + r.2.2.1) % m32, (st.2.2.2 + r.2.2.2) % m32)

/-- `count` little-endian bytes of `n`. -/
def leBytes : Nat → Nat → List Nat
  | 0, _ => []
  | k + 1, n => n % 256 :: leBytes k (n / 256)

/-- MD5 padding: `0x80`, zeros to 56 mod 64, then the bit length as eight
little-endian bytes. -/
def md5Pad (msg : List Nat) : List Nat :=
  let len := msg.length
  let padLen := (119 - len % 64) % 64
  msg ++ [128] ++ List.replicate padLen 0 ++ leBytes 8 ((len * 8) % 2 ^ 64)

/-- Grouping of four consecutive bytes into little-endian 32-bit words. -/
def toWordsLE : List Nat → List Nat
  | a :: b :: c :: d :: rest => (a + 256 * b + 65536 * c + 16777216 * d) :: toWordsLE rest
  | _ => []

/-- Splitting a byte list into 64-byte blocks. -/
def chunks64 : List Nat → List (List Nat)
  | [] => []
  | x :: rest => (x :: rest.take 63) :: chunks64 (rest.drop 63)
termination_by l => l.length
decreasing_by simp [List.length_drop]; omega

/-- Two-digit hexadecimal rendering of a byte. -/
def byteHex (b : Nat) : String := String.mk [hexDigitChar (b / 16 % 16), hexDigitChar (b % 16)]

/-- MD5 digest of a byte list, rendered as 32 lower-case hex digits. -/
def md5hexOfBytes (msg : List Nat) : String :=
  let fin := (chunks64 (md5Pad msg)).foldl (fun st blk => md5Block st (toWordsLE blk))
    (0x67452301, 0xefcdab89, 0x98badcfe, 0x10325476)
  String.join ((leBytes 4 fin.1 ++ leBytes 4 fin.2.1 ++ leBytes 4 fin.2.2.1 ++ leBytes 4 fin.2.2.2).map byteHex)

/-- `hashlib.md5(s.encode()).hexdigest()`. -/
def md5hex (s : String) : String := md5hexOfBytes (utf8Encode s)

/-- `get_cache_key` (`app.py:105`): the deduplication fingerprint, the MD5
hex digest of the `sort_keys=True` serialization of the dictionary
holding `messages`, `model`, `max_tokens` and `temperature`. -/
def get_cache_key (messages : List Json) (model : String) (max_tokens : Int) (temperature : Json) : String :=
  md5hex (json_dumps_sorted (Json.obj
    [("messages", Json.arr messages), ("model", Json.str model),
     ("max_tokens", Json.num (toString max_tokens)), ("temperature", temperature)]))

/- ### Python dictionaries as insertion-ordered association lists -/

/-- Dictionary lookup (`d[k]` / `d.get(k)`). -/
def dictGet (k : String) : List (String × α) → Option α
  | [] => none
  | (k', v) :: t => if k == k' then some v else dictGet k t

/-- Dictionary assignment (`d[k] = v`): overwrites in place, else appends. -/
def dictSet (k : String) (v : α) : List (String × α) → List (String × α)
  | [] => [(k, v)]
  | (k', v') :: t => if k == k' then (k, v) :: t else (k', v') :: dictSet k v t

/-- Dictionary deletion (`del d[k]`). -/
def dictDel (k : String) : List (String × α) → List (String × α)
  | [] => []
  | (k', v') :: t => if k == k' then t else (k', v') :: dictDel k t

/- ### Rate limiter (`check_rate_limit`, `app.py:116`) -/

/-- The shared rate-limit globals: `_request_counts["total"]` (the only key
ever used) and `_last_reset_time`. -/
structure RateState where
  request_counts : Nat
  last_reset_time : Nat
  deriving DecidableEq, Repr

/-- `check_rate_limit` (`app.py:116`): reset the window once 60 time units
have elapsed, then reject at a ceiling of 50 requests, else count and
admit.  Returns the admission verdict and the updated globals. -/
def check_rate_limit (now : Nat) (s : RateState) : Bool × RateState :=
  let s1 := if now - s.last_reset_time ≥ 60 then { request_counts := 0, last_reset_time := now } else s
  if s1.request_counts ≥ 50 then (false, s1)
  else (true, { s1 with request_counts := s1.request_counts + 1 })

/-- A sequence of `check_rate_limit` calls at the given times, collecting
the verdicts. -/
def rateRun : List Nat → RateState → List Bool × RateState
  | [], s => ([], s)
  | t :: ts, s =>
    let step := check_rate_limit t s
    let rest := rateRun ts step.2
    (step.1 :: rest.1, rest.2)

/- ### Response cache (`get_cached_response` / `cache_response`, `app.py:135`) -/

/-- The shared cache globals `_request_cache` and `_cache_timestamps`. -/
structure CacheState where
  request_cache : List (String × Json)
  cache_timestamps : List (String × Nat)

/-- `get_cached_response` (`app.py:135`): serve an entry younger than 300
time units, delete an expired one (lazy expiry), report a miss otherwise.
Returns the lookup result together with the possibly-shrunk cache. -/
def get_cached_response (cache_key : String) (now : Nat) (c : CacheState) : Option Json × CacheState :=
  match dictGet cache_key c.request_cache with
  | some r =>
      if now - (dictGet cache_key c.cache_timestamps).getD 0 < 300 then (some r, c)
      else (none, { request_cache := dictDel cache_key c.request_cache,
                    cache_timestamps := dictDel cache_key c.cache_timestamps })
  | none => (none, c)

/-- `cache_response` (`app.py:151`): unconditional store, stamped `now`. -/
def cache_response (cache_key : String) (response : Json) (now : Nat) (c : CacheState) : CacheState :=
  { request_cache := dictSet cache_key response c.request_cache,
    cache_timestamps := dictSet cache_key now c.cache_timestamps }

/- ### Bounded retry executor (`create_chat_completion`, `app.py:157`) -/

/-- tenacity `wait_exponential(multiplier, min, max)` evaluated after the
attempt numbered `attemptNumber` (1-based):
`max(max(0, min), min(multiplier * 2^(attemptNumber - 1), max))`. -/
def waitExponential (multiplier minW maxW attemptNumber : Nat) : Nat :=
  max (max 0 minW) (min (multiplier * 2 ^ (attemptNumber - 1)) maxW)

/-- Result of running the tenacity-wrapped call: either a success after
`attempts` total attempts, or — the `stop_after_attempt` bound being hit
with `reraise` left at its default `False` — a `RetryError` wrapping the
last attempt's exception.  `waits` lists the back-off sleeps performed
between attempts, in order. -/
inductive RetryOutcome where
  | ok (resp : Json) (attempts : Nat) (waits : List Nat)
  | retryError (lastMsg : String) (attempts : Nat) (waits : List Nat)

/-- The tenacity attempt loop: run attempt `idx` (0-based); on failure,
stop once `remaining` further attempts are not allowed, else sleep
`wait_exponential(1, min=2, max=10)` for the just-finished attempt
`idx + 1` and go again.  `retry_if_exception_type(Exception)` retries
every failure, so no error discrimination appears here. -/
def retryAux (call : Nat → Except String Json) : Nat → Nat → List Nat → RetryOutcome
  | idx, remaining, waits =>
    match call idx, remaining with
    | .ok r, _ => .ok r (idx + 1) waits
    | .error e, 0 => .retryError e (idx + 1) waits
    | .error _, r + 1 => retryAux call (idx + 1) r (waits ++ [waitExponential 1 2 10 (idx + 1)])

/-- `create_chat_completion` (`app.py:157`): the upstream call under
`@retry(stop=stop_after_attempt(3), wait=wait_exponential(multiplier=1,
min=2, max=10), retry=retry_if_exception_type(Exception))`; `call k` is
the outcome the upstream produces for the k-th attempt (0-based). -/
def create_chat_completion (call : Nat → Except String Json) : RetryOutcome :=
  retryAux call 0 2 []

/-- Total attempts reported by a retry run. -/
def retryAttempts : RetryOutcome → Nat
  | .ok _ n _ => n
  | .retryError _ n _ => n

/-- An upstream call that fails on every attempt. -/
def constFailCall : Nat → Except String Json := fun _ => Except.error "boom"

/- ### Streaming generator (`stream_chat_response`, `app.py:303`) -/

/-- One upstream streaming chunk: its `choices` list plus the remaining
serialized fields, kept opaque. -/
structure Chunk where
  choices : List Json
  rest : List (String × Json)

/-- pydantic `chunk.model_dump_json()`: compact JSON in field order, no
key sorting. -/
def chunk_model_dump_json (c : Chunk) : String :=
  dumpsJ false "," ":" (Json.obj (("choices", Json.arr c.choices) :: c.rest))

/-- The terminal sentinel event `data: [DONE]`. -/
def doneEvent : String := "data: [DONE]\n\n"

/-- The per-chunk event `data: <chunk json>`. -/
def chunkEvent (c : Chunk) : String := "data: " ++ chunk_model_dump_json c ++ "\n\n"

/-- The in-band error event `data: {"error": "<message>"}`. -/
def errorEvent (e : String) : String := "data: \x7b\"error\": \"" ++ e ++ "\"\x7d\n\n"

/-- The generator's iteration: emit an event per chunk whose `choices` is
non-empty (`if chunk.choices:`); at the end of the upstream iteration
emit the sentinel, unless iteration raised (`fin = some e`), in which
case the `except` arm emits the single error event. -/
def streamLoop : List Chunk → Option String → List String
  | [], none => [doneEvent]
  | [], some e => [errorEvent e]
  | c :: cs, fin => if c.choices.isEmpty then streamLoop cs fin else chunkEvent c :: streamLoop cs fin

/-- `stream_chat_response` (`app.py:303`), as a function from the upstream
behaviour to the emitted event sequence: the upstream either fails at the
initial `create` call (`.error`), or yields a chunk list followed by
normal completion (`none`) or a mid-iteration exception (`some msg`). -/
def stream_chat_response : Except String (List Chunk × Option String) → List String
  | .error e => [errorEvent e]
  | .ok (cs, fin) => streamLoop cs fin

/- ### The handler (`chat_completions`, `app.py:251`) -/

/-- Substring test on character lists (Python `needle in hay`). -/
def isSub (needle : List Char) : List Char → Bool
  | [] => needle.isEmpty
  | c :: t => needle.isPrefixOf (c :: t) || isSub needle t

/-- Python `needle in hay` on strings. -/
def strContains (hay needle : String) : Bool := isSub needle.data hay.data

/-- Outcome of one request to `POST /v1/chat/completions`: a JSON body, a
`StreamingResponse` with its event sequence, or an `HTTPException`. -/
inductive Outcome where
  | json (resp : Json)
  | streamed (events : List String)
  | httpError (status : Nat) (detail : String)

/-- The `except Exception` arm of `chat_completions` (`app.py:295`),
applied to `str(e)` of the caught exception: remap messages that look
like an upstream rate limit to 429, surface everything else as 500 with
the message as detail. -/
def handleException (msg : String) : Outcome :=
  if strContains msg "429" || strContains msg "Too Many Requests" then
    Outcome.httpError 429 "Azure OpenAI rate limit exceeded"
  else Outcome.httpError 500 msg

/-- `str` of a starlette/FastAPI `HTTPException`: `"<status>: <detail>"`. -/
def strHTTPException (status : Nat) (detail : String) : String :=
  toString status ++ ": " ++ detail

/-- `str` of the tenacity `RetryError` raised when retries are exhausted:
`RetryError[<rendering of the last attempt future>]`.  The future's repr
names its memory address and the exception class — not the exception
message — and is abstracted here to `<Future>`. -/
def tenacityRetryErrorStr : String := "RetryError[<Future>]"

/-- The settings the handler reads (`settings.azure_openai_deployment`). -/
structure Settings where
  azure_openai_deployment : String

/-- The parsed request body (pydantic `ChatCompletionRequest`,
`app.py:208`): `model` defaults to `""`, `max_tokens` to `None`,
`temperature` to `0.7`, `stream` to `False` (`None` if the client sends
an explicit null).  The remaining generation-control fields are opaque
pass-through, collected in `extra`. -/
structure ChatCompletionRequest where
  model : String := ""
  messages : List Json
  max_tokens : Option Int := none
  temperature : Json := Json.num "0.7"
  stream : Option Bool := some false
  extra : List (String × Json) := []

/-- The parameter dictionary sent upstream
(`request.model_dump(exclude_unset=True)` with `params["model"]`
overwritten by the configured deployment). -/
structure Params where
  model : String
  messages : List Json
  max_tokens : Option Int
  temperature : Json
  stream : Option Bool
  extra : List (String × Json)

/-- `params = request.model_dump(...)`; `params["model"] =
settings.azure_openai_deployment` (`app.py:275`). -/
def buildParams (S : Settings) (req : ChatCompletionRequest) : Params :=
  { model := S.azure_openai_deployment, messages := req.messages,
    max_tokens := req.max_tokens, temperature := req.temperature,
    stream := req.stream, extra := req.extra }

/-- `if request.stream:` — truthiness of `Optional[bool]`. -/
def isStreaming (req : ChatCompletionRequest) : Bool := req.stream == some true

/-- Python `request.max_tokens or 1000`: `None` and `0` are falsy. -/
def pyOrInt (x : Option Int) (d : Int) : Int :=
  match x with
  | none => d
  | some v => if v = 0 then d else v

/-- The fingerprint the handler computes (`app.py:261`):
`get_cache_key(request.messages, request.model, request.max_tokens or
1000, request.temperature)`. -/
def handler_cache_key (req : ChatCompletionRequest) : String :=
  get_cache_key req.messages req.model (pyOrInt req.max_tokens 1000) req.temperature

/-- The upstream gateway's behaviour for this request: the outcome of each
numbered non-streaming attempt (`client.chat.completions.create` under
retry) and the behaviour of the streaming call. -/
structure Upstream where
  complete : Params → Nat → Except String Json
  createStream : Params → Except String (List Chunk × Option String)

/-- The mutable globals the handler touches. -/
structure ServerState where
  cache : CacheState
  rate : RateState

/-- `chat_completions` (`app.py:251`), one request at time `now`: admission
check (a rejection raises `HTTPException(429, "Too Many Requests")`,
which the handler's own `except` arm catches and remaps), fingerprint,
cache lookup (a truthy hit is returned as-is), then either the streaming
path (direct create, no store) or the retried non-streaming call whose
success is stored in the cache; an exhausted retry surfaces as a tenacity
`RetryError` translated by the `except` arm.  Returns the outcome, the
updated globals and the list of upstream invocations (one `params` entry
per attempt made). -/
def chat_completions (S : Settings) (now : Nat) (ups : Upstream)
    (req : ChatCompletionRequest) (st : ServerState) : Outcome × ServerState × List Params :=
  let adm := check_rate_limit now st.rate
  if adm.1 then
    let cache_key := handler_cache_key req
    let look := get_cached_response cache_key now st.cache
    match look.1 with
    | some r => (Outcome.json r, { cache := look.2, rate := adm.2 }, [])
    | none =>
      let params := buildParams S req
      if isStreaming req then
        (Outcome.streamed (stream_chat_response (ups.createStream params)),
         { cache := look.2, rate := adm.2 }, [params])
      else
        match create_chat_completion (ups.complete params) with
        | .ok r attempts _ =>
            (Outcome.json r,
             { cache := cache_response cache_key r now look.2, rate := adm.2 },
             List.replicate attempts params)
        | .retryError _ attempts _ =>
            (handleException tenacityRetryErrorStr,
             { cache := look.2, rate := adm.2 }, List.replicate attempts params)
  else
    (handleException (strHTTPException 429 "Too Many Requests"), { st with rate := adm.2 }, [])

/- ### Concrete example inputs used in closed instances -/

/-- A concrete streaming request: one `user: hi` message, `stream: true`. -/
def streamReq : ChatCompletionRequest :=
  { model := "m",
    messages := [Json.obj [("role", Json.str "user"), ("content", Json.str "hi")]],
    stream := some true }

/-- A server state whose cache holds a fresh entry (stamped at time 0) for
the fingerprint of `streamReq`. -/
def primedState : ServerState :=
  { cache := { request_cache := [(handler_cache_key streamReq, Json.str "cached")],
               cache_timestamps := [(handler_cache_key streamReq, 0)] },
    rate := { request_counts := 0, last_reset_time := 0 } }

/-- An upstream whose streaming call completes at once with no chunks and
whose non-streaming call is never reached. -/
def streamUps : Upstream :=
  { complete := fun _ _ => Except.error "unused",
    createStream := fun _ => Except.ok ([], none) }

/- ### Dictionary lemmas -/

lemma dictGet_dictSet_self (k : String) (v : α) (d : List (String × α)) :
    dictGet k (dictSet k v d) = some v := by
  induction d with
  | nil => simp [dictSet, dictGet]
  | cons p t ih =>
      obtain ⟨k', v'⟩ := p
      by_cases h : k = k'
      · subst h; simp [dictSet, dictGet]
      · simp [dictSet, dictGet, beq_iff_eq, h, ih]

lemma dictGet_not_mem (k : String) (d : List (String × α)) (h : k ∉ d.map Prod.fst) :
    dictGet k d = none := by
  induction d with
  | nil => simp [dictGet]
  | cons p t ih =>
      obtain ⟨k', v'⟩ := p
      rw [List.map_cons] at h
      have h1 : ¬ k = k' := fun he => h (he ▸ List.mem_cons_self k' (t.map Prod.fst))
      have h2 : k ∉ t.map Prod.fst := fun hm => h (List.mem_cons_of_mem _ hm)
      simp [dictGet, beq_iff_eq, h1, ih h2]

lemma mem_keys_dictSet (a k : String) (v : α) (d : List (String × α)) :
    a ∈ (dictSet k v d).map Prod.fst ↔ a = k ∨ a ∈ d.map Prod.fst := by
  induction d with
  | nil => simp [dictSet]
  | cons p t ih =>
      obtain ⟨k', v'⟩ := p
      by_cases h : k = k'
      · subst h
        simp only [dictSet, beq_self_eq_true, if_true, List.map_cons, List.mem_cons]
        tauto
      · simp only [dictSet, beq_iff_eq, h, if_false, List.map_cons, List.mem_cons, ih]
        tauto

lemma nodupKeys_dictSet (k : String) (v : α) (d : List (String × α))
    (h : (d.map Prod.fst).Nodup) : ((dictSet k v d).map Prod.fst).Nodup := by
  induction d with
  | nil => simp [dictSet]
  | cons p t ih =>
      obtain ⟨k', v'⟩ := p
      rw [List.map_cons, List.nodup_cons] at h
      by_cases hk : k = k'
      · subst hk
        simpa only [dictSet, beq_self_eq_true, if_true, List.map_cons, List.nodup_cons] using h
      · simp only [dictSet, beq_iff_eq, hk, if_false, List.map_cons, List.nodup_cons]
        exact ⟨fun hm => ((mem_keys_dictSet k' k v t).mp hm).elim (fun he => hk he.symm) h.1,
               ih h.2⟩

lemma dictGet_dictDel_self (k : String) (d : List (String × α))
    (h : (d.map Prod.fst).Nodup) : dictGet k (dictDel k d) = none := by
  induction d with
  | nil => simp [dictDel, dictGet]
  | cons p t ih =>
      obtain ⟨k', v'⟩ := p
      rw [List.map_cons, List.nodup_cons] at h
      by_cases hk : k = k'
      · subst hk
        simp only [dictDel, beq_self_eq_true, if_true]
        exact dictGet_not_mem k t h.1
      · simp [dictDel, dictGet, beq_iff_eq, hk, ih h.2]

/-- Claim C5: cache round-trip and expiry-on-read.  A `cache_response`
followed by a `get_cached_response` of the same fingerprint strictly less
than 300 time units later returns the stored response; a lookup 300 or
more time units after the insertion removes the entry and reports a miss
(the key is gone from the stored dictionary, whose keys are unique as in
any Python dict); a lookup of a fingerprint never stored reports a miss
and leaves the cache untouched. -/
theorem c5_cache_roundtrip :
    (∀ (k : String) (r : Json) (now₁ now₂ : Nat) (c : CacheState),
        now₂ - now₁ < 300 →
        (get_cached_response k now₂ (cache_response k r now₁ c)).1 = some r)
    ∧ (∀ (k : String) (r : Json) (now₁ now₂ : Nat) (c : CacheState),
        (c.request_cache.map Prod.fst).Nodup →
        300 ≤ now₂ - now₁ →
        (get_cached_response k now₂ (cache_response k r now₁ c)).1 = none ∧
        dictGet k (get_cached_response k now₂ (cache_response k r now₁ c)).2.request_cache = none)
    ∧ (∀ (k : String) (now : Nat) (c : CacheState),
        dictGet k c.request_cache = none →
        get_cached_response k now c = (none, c)) := by
  refine ⟨fun k r now₁ now₂ c h => ?_, fun k r now₁ now₂ c hnd h => ?_, fun k now c h => ?_⟩
  · simp [get_cached_response, cache_response, dictGet_dictSet_self, h]
  · have hts : (dictGet k (dictSet k now₁ c.cache_timestamps)).getD 0 = now₁ := by
      rw [dictGet_dictSet_self]; rfl
    have hnotlt : ¬ now₂ - now₁ < 300 := not_lt.mpr h
    constructor
    · simp [get_cached_response, cache_response, dictGet_dictSet_self, hts, hnotlt]
    · simp only [get_cached_response, cache_response, dictGet_dictSet_self, Option.getD_some,
        hnotlt, if_false]
      exact dictGet_dictDel_self k _ (nodupKeys_dictSet k r c.request_cache hnd)
  · simp [get_cached_response, h]

/-- Witness for C5 at concrete inputs: a fresh hit 299 units later, an
expired lookup exactly 300 units later, and a miss on an empty cache. -/
theorem c5_cache_roundtrip_witness :
    (get_cached_response "f" 299 (cache_response "f" (Json.str "r") 0 ⟨[], []⟩)).1
      = some (Json.str "r")
    ∧ (get_cached_response "f" 300 (cache_response "f" (Json.str "r") 0 ⟨[], []⟩)).1 = none
    ∧ get_cached_response "f" 7 ⟨[], []⟩ = (none, ⟨[], []⟩) :=
  ⟨c5_cache_roundtrip.1 "f" (Json.str "r") 0 299 ⟨[], []⟩ (by decide),
   (c5_cache_roundtrip.2.1 "f" (Json.str "r") 0 300 ⟨[], []⟩ (by decide) (by decide)).1,
   c5_cache_roundtrip.2.2 "f" 7 ⟨[], []⟩ rfl⟩

/-- Closed form of a run of `check_rate_limit` calls that all fall inside
the current window (no reset fires): starting from counter `c ≤ 50`, the
i-th call is admitted exactly when `c + i < 50`, and the counter ends at
`min 50 (c + number of calls)` with the window start unchanged. -/
lemma rateRun_in_window (ts : List Nat) (start : Nat) :
    ∀ c : Nat, (∀ t ∈ ts, t - start < 60) → c ≤ 50 →
    rateRun ts ⟨c, start⟩ =
      ((List.range ts.length).map (fun i => decide (c + i < 50)),
       ⟨min 50 (c + ts.length), start⟩) := by
  induction ts with
  | nil =>
      intro c _ hc
      simp [rateRun, Nat.min_eq_right hc]
  | cons t ts ih =>
      intro c h hc
      have ht : ¬ 60 ≤ t - start := not_le.mpr (h t (List.mem_cons_self t ts))
      have h' : ∀ x ∈ ts, x - start < 60 := fun x hx => h x (List.mem_cons_of_mem t hx)
      by_cases hc50 : c < 50
      · have step : check_rate_limit t ⟨c, start⟩ = (true, ⟨c + 1, start⟩) := by
          simp [check_rate_limit, ht, not_le.mpr hc50]
        have harr : (fun i => decide (c + (i + 1) < 50)) = (fun i => decide (c + 1 + i < 50)) :=
          funext fun i => decide_eq_decide.mpr (by omega)
        simp only [rateRun, step, ih (c + 1) h' hc50, List.length_cons,
          List.range_succ_eq_map, List.map_cons, List.map_map]
        refine Prod.ext ?_ ?_
        · simp only [Function.comp_def]
          rw [harr]
          simp [hc50]
        · dsimp only
          rw [show c + 1 + ts.length = c + (ts.length + 1) from by omega]
      · have hc' : c = 50 := le_antisymm hc (not_lt.mp hc50)
        subst hc'
        have step : check_rate_limit t ⟨50, start⟩ = (false, ⟨50, start⟩) := by
          simp [check_rate_limit, ht]
        have harr : (fun i => decide (50 + (i + 1) < 50)) = (fun i => decide (50 + i < 50)) :=
          funext fun i => decide_eq_decide.mpr (by omega)
        simp only [rateRun, step, ih 50 h' le_rfl, List.length_cons,
          List.range_succ_eq_map, List.map_cons, List.map_map]
        refine Prod.ext ?_ ?_
        · simp only [Function.comp_def]
          rw [harr]
          simp
        · dsimp only
          rw [show (50 : Nat) + ts.length = 49 + (ts.length + 1) from by omega,
              show (50 : Nat) + (ts.length + 1) = 49 + (ts.length + 1) + 1 from by omega]
          simp [Nat.min_def]
          omega

/-- Claim C2: the rate-limit check.  (1) When at least 60 time units have
elapsed since the window start, the call resets the window and is
admitted, leaving counter 1 and window-start `now` — after a rollover,
counting restarts from zero.  (2) Inside the window, a call finding the
counter at or above the ceiling 50 is rejected without any state change
(no increment).  (3) Inside the window, a call finding the counter below
50 is admitted and increments exactly the counter.  (4) Consequently a
sequence of 51 calls inside one window starting from a fresh window has
exactly the first 50 admitted and the 51st rejected. -/
theorem c2_rate_limiter :
    (∀ (now : Nat) (s : RateState), 60 ≤ now - s.last_reset_time →
        check_rate_limit now s = (true, ⟨1, now⟩))
    ∧ (∀ (now : Nat) (s : RateState), now - s.last_reset_time < 60 →
        50 ≤ s.request_counts → check_rate_limit now s = (false, s))
    ∧ (∀ (now : Nat) (s : RateState), now - s.last_reset_time < 60 →
        s.request_counts < 50 →
        check_rate_limit now s = (true, ⟨s.request_counts + 1, s.last_reset_time⟩))
    ∧ (∀ (ts : List Nat) (start : Nat), ts.length = 51 →
        (∀ t ∈ ts, t - start < 60) →
        (rateRun ts ⟨0, start⟩).1 = List.replicate 50 true ++ [false]) := by
  refine ⟨fun now s h => ?_, fun now s h h50 => ?_, fun now s h h50 => ?_,
          fun ts start hlen h => ?_⟩
  · simp [check_rate_limit, h]
  · simp [check_rate_limit, not_le.mpr h, h50]
  · simp [check_rate_limit, not_le.mpr h, not_le.mpr h50]
  · rw [rateRun_in_window ts start 0 h (by omega), hlen]
    dsimp only
    decide

/-- Witness for C2 at concrete inputs: a rollover call at `now = 60`, a
rejection at a full counter, an ordinary admission, and a 51-call run at
time 0 admitting exactly the first 50. -/
theorem c2_rate_limiter_witness :
    check_rate_limit 60 ⟨17, 0⟩ = (true, ⟨1, 60⟩)
    ∧ check_rate_limit 59 ⟨50, 0⟩ = (false, ⟨50, 0⟩)
    ∧ check_rate_limit 59 ⟨49, 0⟩ = (true, ⟨50, 0⟩)
    ∧ (rateRun (List.replicate 51 0) ⟨0, 0⟩).1 = List.replicate 50 true ++ [false] :=
  ⟨c2_rate_limiter.1 60 ⟨17, 0⟩ (by decide),
   c2_rate_limiter.2.1 59 ⟨50, 0⟩ (by decide) (by decide),
   c2_rate_limiter.2.2.1 59 ⟨49, 0⟩ (by decide) (by decide),
   c2_rate_limiter.2.2.2 (List.replicate 51 0) 0 (by decide)
     (fun t ht => by simp [List.eq_of_mem_replicate ht])⟩

lemma retryAux_attempts_le (call : Nat → Except String Json) :
    ∀ (rem idx : Nat) (waits : List Nat),
      retryAttempts (retryAux call idx rem waits) ≤ idx + rem + 1 := by
  intro rem
  induction rem with
  | zero =>
      intro idx waits
      cases hc : call idx <;> simp [retryAux, hc, retryAttempts]
  | succ r ih =>
      intro idx waits
      cases hc : call idx with
      | ok v => simp [retryAux, hc, retryAttempts]
      | error e =>
          have h2 := ih (idx + 1) (waits ++ [waitExponential 1 2 10 (idx + 1)])
          simp [retryAux, hc]
          omega

lemma retryAux_attempts_pos (call : Nat → Except String Json) :
    ∀ (rem idx : Nat) (waits : List Nat),
      idx + 1 ≤ retryAttempts (retryAux call idx rem waits) := by
  intro rem
  induction rem with
  | zero =>
      intro idx waits
      cases hc : call idx <;> simp [retryAux, hc, retryAttempts]
  | succ r ih =>
      intro idx waits
      cases hc : call idx with
      | ok v => simp [retryAux, hc, retryAttempts]
      | error e =>
          have h2 := ih (idx + 1) (waits ++ [waitExponential 1 2 10 (idx + 1)])
          simp [retryAux, hc]
          omega

/-- Counterexample to claim C3 as stated: on a permanently failing call,
the executor stops after 3 attempts but raises a tenacity `RetryError`
wrapping the final exception (`reraise` is left at its default `False`),
rather than propagating the exception unchanged; and the two back-off
waits performed are 2 and 2 time units — under
`wait_exponential(multiplier=1, min=2, max=10)` the raw waits
`2^(k-1) · 1 = 1, 2` are clamped up to the minimum 2 — not the
"2 then doubled to 4" sequence the claim describes. -/
theorem c3_counterexample :
    create_chat_completion constFailCall = RetryOutcome.retryError "boom" 3 [2, 2]
    ∧ ([2, 2] : List Nat) ≠ [2, 4] :=
  ⟨rfl, by decide⟩

/-- Claim C3 (amended): the executor makes at most 3 total attempts and at
least one; a first-attempt success returns after 1 attempt with no wait;
one failure then success returns after 2 attempts with a single wait of
2; two failures then success returns the success after exactly 3 attempts
with waits 2, 2; a call failing thrice makes exactly 3 attempts and ends
in a `RetryError` carrying the last failure (not the unchanged
exception); and every wait `max(2, min(2^(k-1), 10))` lies between the
floor 2 and the cap 10. -/
theorem c3_retry_amended :
    (∀ (call : Nat → Except String Json) (r : Json),
        call 0 = .ok r → create_chat_completion call = .ok r 1 [])
    ∧ (∀ (call : Nat → Except String Json) (e₀ : String) (r : Json),
        call 0 = .error e₀ → call 1 = .ok r →
        create_chat_completion call = .ok r 2 [2])
    ∧ (∀ (call : Nat → Except String Json) (e₀ e₁ : String) (r : Json),
        call 0 = .error e₀ → call 1 = .error e₁ → call 2 = .ok r →
        create_chat_completion call = .ok r 3 [2, 2])
    ∧ (∀ (call : Nat → Except String Json) (e₀ e₁ e₂ : String),
        call 0 = .error e₀ → call 1 = .error e₁ → call 2 = .error e₂ →
        create_chat_completion call = .retryError e₂ 3 [2, 2])
    ∧ (∀ call : Nat → Except String Json,
        1 ≤ retryAttempts (create_chat_completion call) ∧
        retryAttempts (create_chat_completion call) ≤ 3)
    ∧ (∀ k : Nat, 2 ≤ waitExponential 1 2 10 k ∧ waitExponential 1 2 10 k ≤ 10) := by
  have w1 : waitExponential 1 2 10 1 = 2 := rfl
  have w2 : waitExponential 1 2 10 2 = 2 := rfl
  refine ⟨fun call r h0 => ?_, fun call e₀ r h0 h1 => ?_, fun call e₀ e₁ r h0 h1 h2 => ?_,
          fun call e₀ e₁ e₂ h0 h1 h2 => ?_, fun call => ?_, fun k => ?_⟩
  · simp [create_chat_completion, retryAux, h0]
  · simp [create_chat_completion, retryAux, h0, h1, w1]
  · simp [create_chat_completion, retryAux, h0, h1, h2, w1, w2]
  · simp [create_chat_completion, retryAux, h0, h1, h2, w1, w2]
  · exact ⟨retryAux_attempts_pos call 2 0 [], retryAux_attempts_le call 2 0 []⟩
  · unfold waitExponential
    constructor
    · omega
    · have : min (1 * 2 ^ (k - 1)) 10 ≤ 10 := Nat.min_le_right _ _
      omega

/-- Witness for C3 (amended) at concrete calls: three failures yield the
wrapped last error after 3 attempts and waits 2, 2; an immediately
succeeding call returns after a single attempt with no wait. -/
theorem c3_retry_amended_witness :
    create_chat_completion (fun n => Except.error (toString n))
      = RetryOutcome.retryError "2" 3 [2, 2]
    ∧ create_chat_completion (fun _ => Except.ok Json.null) = RetryOutcome.ok Json.null 1 [] :=
  ⟨c3_retry_amended.2.2.2.1 (fun n => Except.error (toString n)) "0" "1" "2" rfl rfl rfl,
   c3_retry_amended.1 (fun _ => Except.ok Json.null) Json.null rfl⟩

/-- Claim C8: the streaming generator yields exactly one `data: <json>`
event per upstream chunk having at least one choice — chunks with empty
`choices` produce nothing — followed by the `data: [DONE]` sentinel on
normal completion; if the upstream create call or the iteration raises,
the generator ends with a single in-band `data: {"error": ...}` event
instead (events of chunks already consumed having been emitted), and
never re-raises. -/
theorem c8_streaming_events :
    (∀ cs : List Chunk,
        stream_chat_response (.ok (cs, none)) =
          (cs.filter (fun c => !c.choices.isEmpty)).map chunkEvent ++ [doneEvent])
    ∧ (∀ (cs : List Chunk) (e : String),
        stream_chat_response (.ok (cs, some e)) =
          (cs.filter (fun c => !c.choices.isEmpty)).map chunkEvent ++ [errorEvent e])
    ∧ (∀ e : String, stream_chat_response (.error e) = [errorEvent e]) := by
  have main : ∀ (cs : List Chunk) (fin : Option String),
      streamLoop cs fin =
        (cs.filter (fun c => !c.choices.isEmpty)).map chunkEvent ++
          [match fin with | none => doneEvent | some e => errorEvent e] := by
    intro cs fin
    induction cs with
    | nil => cases fin <;> simp [streamLoop]
    | cons c cs ih =>
        by_cases hc : c.choices.isEmpty
        · simp [streamLoop, hc, ih, List.filter_cons]
        · simp [streamLoop, hc, ih, List.filter_cons]
  exact ⟨fun cs => main cs none, fun cs e => main cs (some e),
         fun e => rfl⟩

/-- Claim C7: a request without `max_tokens` gets the same fingerprint as
the same request with `max_tokens` set to the default 1000 (Python
`request.max_tokens or 1000`), so the two share one cache entry. -/
theorem c7_default_max_tokens (req : ChatCompletionRequest) (h : req.max_tokens = none) :
    handler_cache_key req = handler_cache_key { req with max_tokens := some 1000 } := by
  simp [handler_cache_key, pyOrInt, h]

/-- Witness for C7: a concrete request with absent `max_tokens`. -/
theorem c7_default_max_tokens_witness :
    handler_cache_key
        { model := "m", messages := [Json.obj [("role", Json.str "user"), ("content", Json.str "hi")]] }
      = handler_cache_key
        { model := "m", messages := [Json.obj [("role", Json.str "user"), ("content", Json.str "hi")]],
          max_tokens := some 1000 } :=
  c7_default_max_tokens
    { model := "m", messages := [Json.obj [("role", Json.str "user"), ("content", Json.str "hi")]] }
    rfl

/- ### Key-order insensitivity of the canonical serialization -/

lemma dumpsFields_eq_map (sk : Bool) (isep ksep : String) (fs : List (String × Json)) :
    dumpsFields sk isep ksep fs = fs.map (fun p => (p.1, dumpsJ sk isep ksep p.2)) := by
  induction fs with
  | nil => rfl
  | cons p t ih =>
      obtain ⟨k, v⟩ := p
      simp [dumpsFields, ih]

lemma keys_dumpsFields (sk : Bool) (isep ksep : String) (fs : List (String × Json)) :
    (dumpsFields sk isep ksep fs).map Prod.fst = fs.map Prod.fst := by
  rw [dumpsFields_eq_map, List.map_map]
  rfl

/-- Two key-sorted item lists that are permutations of one another and have
pairwise-distinct keys are equal. -/
lemma sorted_perm_keys_eq :
    ∀ {l₁ l₂ : List (String × String)}, l₁.Perm l₂ →
      l₁.Sorted fieldLe → l₂.Sorted fieldLe → (l₁.map Prod.fst).Nodup → l₁ = l₂ := by
  intro l₁
  induction l₁ with
  | nil =>
      intro l₂ hp _ _ _
      exact (List.Perm.eq_nil hp.symm).symm
  | cons a t ih =>
      intro l₂ hp hs₁ hs₂ hnd
      cases l₂ with
      | nil => exact absurd hp.eq_nil (by simp)
      | cons b u =>
          rw [List.map_cons, List.nodup_cons] at hnd
          have hab : a = b := by
            by_contra hne
            have ha : a ∈ u := by
              rcases List.mem_cons.mp (hp.subset (List.mem_cons_self a t)) with h | h
              · exact absurd h hne
              · exact h
            have hb : b ∈ t := by
              rcases List.mem_cons.mp (hp.symm.subset (List.mem_cons_self b u)) with h | h
              · exact absurd h.symm hne
              · exact h
            have h₁ : a.1 ≤ b.1 := List.rel_of_sorted_cons hs₁ b hb
            have h₂ : b.1 ≤ a.1 := List.rel_of_sorted_cons hs₂ a ha
            have hk : a.1 = b.1 := le_antisymm h₁ h₂
            exact hnd.1 (hk ▸ List.mem_map_of_mem Prod.fst hb)
          subst hab
          have ht : t.Perm u := hp.cons_inv
          rw [ih ht hs₁.of_cons hs₂.of_cons hnd.2]

/-- `sorted(items)` is invariant under permuting an item list with distinct
keys. -/
lemma insertionSort_perm_keys_eq {l₁ l₂ : List (String × String)} (hp : l₁.Perm l₂)
    (hnd : (l₁.map Prod.fst).Nodup) :
    List.insertionSort fieldLe l₁ = List.insertionSort fieldLe l₂ := by
  refine sorted_perm_keys_eq
    ((List.perm_insertionSort fieldLe l₁).trans (hp.trans (List.perm_insertionSort fieldLe l₂).symm))
    (List.sorted_insertionSort fieldLe l₁) (List.sorted_insertionSort fieldLe l₂) ?_
  exact (((List.perm_insertionSort fieldLe l₁).map Prod.fst).nodup_iff).mpr hnd

/-- Rendering an object under `sort_keys=True` is invariant under permuting
its fields, provided the keys are distinct (as they are in any Python
dictionary). -/
lemma dumpsJ_obj_perm (isep ksep : String) (fs₁ fs₂ : List (String × Json))
    (hp : fs₁.Perm fs₂) (hnd : (fs₁.map Prod.fst).Nodup) :
    dumpsJ true isep ksep (Json.obj fs₁) = dumpsJ true isep ksep (Json.obj fs₂) := by
  have h1 : (dumpsFields true isep ksep fs₁).Perm (dumpsFields true isep ksep fs₂) := by
    rw [dumpsFields_eq_map, dumpsFields_eq_map]
    exact hp.map _
  have hk : ((dumpsFields true isep ksep fs₁).map Prod.fst).Nodup := by
    rw [keys_dumpsFields]
    exact hnd
  have hs := insertionSort_perm_keys_eq h1 hk
  simp only [dumpsJ, if_true]
  rw [hs]

lemma dumpsList_obj_perm (isep ksep : String) (ms₁ ms₂ : List (List (String × Json)))
    (hp : List.Forall₂ List.Perm ms₁ ms₂)
    (hnd : ∀ f ∈ ms₁, (f.map Prod.fst).Nodup) :
    dumpsList true isep ksep (ms₁.map Json.obj) = dumpsList true isep ksep (ms₂.map Json.obj) := by
  revert hnd
  induction hp with
  | nil => intro _; rfl
  | cons h₁ h₂ ih =>
      intro hnd
      simp only [List.map_cons, dumpsList]
      rw [dumpsJ_obj_perm isep ksep _ _ h₁ (hnd _ (List.mem_cons_self _ _)),
          ih (fun f hf => hnd f (List.mem_cons_of_mem _ hf))]

/-- Claim C6: the fingerprint is a pure, deterministic function of
`{messages, model, max_tokens, temperature}`: re-serializing the message
objects with their keys in any other order (any permutation of each
message's fields, keys being unique as in any Python dictionary) yields
the identical digest.  The function takes no clock and draws no
randomness — equal field values always give equal digests. -/
theorem c6_fingerprint_deterministic
    (msgs₁ msgs₂ : List (List (String × Json))) (model : String) (mt : Int) (temp : Json)
    (hperm : List.Forall₂ List.Perm msgs₁ msgs₂)
    (hnd : ∀ f ∈ msgs₁, (f.map Prod.fst).Nodup) :
    get_cache_key (msgs₁.map Json.obj) model mt temp
      = get_cache_key (msgs₂.map Json.obj) model mt temp := by
  have harr : dumpsJ true ", " ": " (Json.arr (msgs₁.map Json.obj))
      = dumpsJ true ", " ": " (Json.arr (msgs₂.map Json.obj)) := by
    simp only [dumpsJ]
    rw [dumpsList_obj_perm ", " ": " msgs₁ msgs₂ hperm hnd]
  have hfields :
      dumpsFields true ", " ": "
        [("messages", Json.arr (msgs₁.map Json.obj)), ("model", Json.str model),
         ("max_tokens", Json.num (toString mt)), ("temperature", temp)]
      = dumpsFields true ", " ": "
        [("messages", Json.arr (msgs₂.map Json.obj)), ("model", Json.str model),
         ("max_tokens", Json.num (toString mt)), ("temperature", temp)] := by
    simp only [dumpsFields]
    rw [harr]
  simp only [get_cache_key, json_dumps_sorted, dumpsJ]
  rw [hfields]

/-- Witness for C6: the message `{role: user, content: hi}` serialized in
the two possible key orders produces the same fingerprint. -/
theorem c6_fingerprint_deterministic_witness :
    get_cache_key [Json.obj [("role", Json.str "user"), ("content", Json.str "hi")]]
        "m" 1000 (Json.num "0.7")
      = get_cache_key [Json.obj [("content", Json.str "hi"), ("role", Json.str "user")]]
        "m" 1000 (Json.num "0.7") :=
  c6_fingerprint_deterministic
    [[("role", Json.str "user"), ("content", Json.str "hi")]]
    [[("content", Json.str "hi"), ("role", Json.str "user")]]
    "m" 1000 (Json.num "0.7")
    (List.Forall₂.cons
      (List.Perm.swap ("content", Json.str "hi") ("role", Json.str "user") [])
      List.Forall₂.nil)
    (fun f hf => by
      rw [List.mem_singleton] at hf
      subst hf
      decide)

/-- Claim C1: two identical non-streaming requests in quick succession
(the second strictly within the 300-unit freshness window, the upstream
unchanged and succeeding on its first attempt) from a fresh server state:
the first is answered by the upstream, the second is answered from the
cache with the identical response, and exactly one upstream invocation
happens across both requests. -/
theorem c1_cache_dedup (S : Settings) (req : ChatCompletionRequest) (ups : Upstream)
    (now₁ now₂ : Nat) (r : Json)
    (hstream : isStreaming req = false)
    (hok : ups.complete (buildParams S req) 0 = .ok r)
    (h12 : now₁ ≤ now₂) (hfresh : now₂ - now₁ < 300) :
    (chat_completions S now₁ ups req ⟨⟨[], []⟩, ⟨0, now₁⟩⟩).1 = Outcome.json r
    ∧ (chat_completions S now₂ ups req
        (chat_completions S now₁ ups req ⟨⟨[], []⟩, ⟨0, now₁⟩⟩).2.1).1 = Outcome.json r
    ∧ (chat_completions S now₁ ups req ⟨⟨[], []⟩, ⟨0, now₁⟩⟩).2.2.length
      + (chat_completions S now₂ ups req
          (chat_completions S now₁ ups req ⟨⟨[], []⟩, ⟨0, now₁⟩⟩).2.1).2.2.length = 1 := by
  have hadm1 : check_rate_limit now₁ ⟨0, now₁⟩ = (true, ⟨1, now₁⟩) := by
    simp [check_rate_limit]
  have hretry : create_chat_completion (ups.complete (buildParams S req)) = .ok r 1 [] := by
    simp [create_chat_completion, retryAux, hok]
  have e1 : chat_completions S now₁ ups req ⟨⟨[], []⟩, ⟨0, now₁⟩⟩
      = (Outcome.json r,
         ⟨cache_response (handler_cache_key req) r now₁ ⟨[], []⟩, ⟨1, now₁⟩⟩,
         [buildParams S req]) := by
    simp [chat_completions, hadm1, get_cached_response, dictGet, hstream, hretry]
  have hadm2 : (check_rate_limit now₂ ⟨1, now₁⟩).1 = true := by
    unfold check_rate_limit
    by_cases hwin : 60 ≤ now₂ - now₁ <;> simp [hwin]
  have hhit : get_cached_response (handler_cache_key req) now₂
      (cache_response (handler_cache_key req) r now₁ ⟨[], []⟩)
      = (some r, cache_response (handler_cache_key req) r now₁ ⟨[], []⟩) := by
    simp [get_cached_response, cache_response, dictGet_dictSet_self, hfresh]
  have e2a : (chat_completions S now₂ ups req
      ⟨cache_response (handler_cache_key req) r now₁ ⟨[], []⟩, ⟨1, now₁⟩⟩).1 = Outcome.json r := by
    simp [chat_completions, hadm2, hhit]
  have e2b : (chat_completions S now₂ ups req
      ⟨cache_response (handler_cache_key req) r now₁ ⟨[], []⟩, ⟨1, now₁⟩⟩).2.2 = [] := by
    simp [chat_completions, hadm2, hhit]
  refine ⟨by rw [e1], ?_, ?_⟩
  · rw [e1]
    exact e2a
  · rw [e1]
    simp [e2b]

/-- Witness for C1: a concrete request pair at times 0 and 5 against an
upstream that answers `"resp"`; the second answer equals the first and
one upstream call is made in total. -/
theorem c1_cache_dedup_witness :
    (chat_completions ⟨"dep"⟩ 0
        ⟨fun _ _ => Except.ok (Json.str "resp"), fun _ => Except.error "unused"⟩
        { model := "m", messages := [Json.obj [("role", Json.str "user"), ("content", Json.str "hi")]] }
        ⟨⟨[], []⟩, ⟨0, 0⟩⟩).1 = Outcome.json (Json.str "resp")
    ∧ (chat_completions ⟨"dep"⟩ 5
        ⟨fun _ _ => Except.ok (Json.str "resp"), fun _ => Except.error "unused"⟩
        { model := "m", messages := [Json.obj [("role", Json.str "user"), ("content", Json.str "hi")]] }
        (chat_completions ⟨"dep"⟩ 0
          ⟨fun _ _ => Except.ok (Json.str "resp"), fun _ => Except.error "unused"⟩
          { model := "m", messages := [Json.obj [("role", Json.str "user"), ("content", Json.str "hi")]] }
          ⟨⟨[], []⟩, ⟨0, 0⟩⟩).2.1).1 = Outcome.json (Json.str "resp")
    ∧ (chat_completions ⟨"dep"⟩ 0
        ⟨fun _ _ => Except.ok (Json.str "resp"), fun _ => Except.error "unused"⟩
        { model := "m", messages := [Json.obj [("role", Json.str "user"), ("content", Json.str "hi")]] }
        ⟨⟨[], []⟩, ⟨0, 0⟩⟩).2.2.length
      + (chat_completions ⟨"dep"⟩ 5
          ⟨fun _ _ => Except.ok (Json.str "resp"), fun _ => Except.error "unused"⟩
          { model := "m", messages := [Json.obj [("role", Json.str "user"), ("content", Json.str "hi")]] }
          (chat_completions ⟨"dep"⟩ 0
            ⟨fun _ _ => Except.ok (Json.str "resp"), fun _ => Except.error "unused"⟩
            { model := "m", messages := [Json.obj [("role", Json.str "user"), ("content", Json.str "hi")]] }
            ⟨⟨[], []⟩, ⟨0, 0⟩⟩).2.1).2.2.length = 1 :=
  c1_cache_dedup ⟨"dep"⟩
    { model := "m", messages := [Json.obj [("role", Json.str "user"), ("content", Json.str "hi")]] }
    ⟨fun _ _ => Except.ok (Json.str "resp"), fun _ => Except.error "unused"⟩
    0 5 (Json.str "resp") rfl rfl (by decide) (by decide)


/-- Counterexample to claim C4 as stated: the handler computes the
fingerprint and performs the cache lookup *before* branching on
`request.stream`, so a streaming request (`streamReq`, with
`stream = some true`) whose fingerprint has a fresh cache entry
(`primedState`, stored earlier by a non-streaming request) is answered
with the cached JSON response — not by streaming from the upstream — and
no upstream call is made. -/
theorem c4_counterexample :
    streamReq.stream = some true
    ∧ (chat_completions ⟨"dep"⟩ 0 streamUps streamReq primedState).1
        = Outcome.json (Json.str "cached")
    ∧ (chat_completions ⟨"dep"⟩ 0 streamUps streamReq primedState).2.2 = [] := by
  refine ⟨rfl, ?_, ?_⟩ <;>
    simp [chat_completions, primedState, check_rate_limit, get_cached_response, dictGet]

/-- Claim C4 (amended): for an admitted streaming request the handler does
compute the fingerprint and perform the cache lookup; on a miss the
response is streamed directly from the upstream gateway and nothing is
stored in the cache (the state keeps only the lookup's lazy-expiry
effect); on a fresh hit the cached (non-streaming) response is returned
instead of streaming, with no upstream call. -/
theorem c4_streaming_amended (S : Settings) (now : Nat) (ups : Upstream)
    (req : ChatCompletionRequest) (st : ServerState)
    (hs : isStreaming req = true)
    (hadm : (check_rate_limit now st.rate).1 = true) :
    ((get_cached_response (handler_cache_key req) now st.cache).1 = none →
      chat_completions S now ups req st
        = (Outcome.streamed (stream_chat_response (ups.createStream (buildParams S req))),
           ⟨(get_cached_response (handler_cache_key req) now st.cache).2,
            (check_rate_limit now st.rate).2⟩,
           [buildParams S req]))
    ∧ (∀ r : Json, (get_cached_response (handler_cache_key req) now st.cache).1 = some r →
        chat_completions S now ups req st
          = (Outcome.json r,
             ⟨(get_cached_response (handler_cache_key req) now st.cache).2,
              (check_rate_limit now st.rate).2⟩, [])) := by
  constructor
  · intro hmiss
    simp [chat_completions, hadm, hmiss, hs]
  · intro r hhit
    simp [chat_completions, hadm, hhit]

/-- Witness for C4 (amended): the concrete admitted streaming request with
an empty cache streams directly from the upstream. -/
theorem c4_streaming_amended_witness :
    chat_completions ⟨"dep"⟩ 0 streamUps streamReq ⟨⟨[], []⟩, ⟨0, 0⟩⟩
      = (Outcome.streamed (stream_chat_response (Except.ok ([], none))),
         ⟨⟨[], []⟩, ⟨1, 0⟩⟩, [buildParams ⟨"dep"⟩ streamReq]) :=
  (c4_streaming_amended ⟨"dep"⟩ 0 streamUps streamReq ⟨⟨[], []⟩, ⟨0, 0⟩⟩ rfl rfl).1 rfl

/-- Claim C9: every failure of the non-streaming path is caught at the
handler boundary and translated to an HTTP error.  (1) A rate-limit
admission rejection ends as status 429 (the internal
`HTTPException(429, "Too Many Requests")` is itself caught by the
handler's `except` arm, whose substring check remaps it, with detail
"Azure OpenAI rate limit exceeded").  (2) The `except` arm translates a
caught exception whose message contains "429" or "Too Many Requests" to
status 429, and any other message to status 500 carrying the message as
the detail.  (3) An admitted non-streaming request whose three upstream
attempts all fail ends as the translation of the tenacity `RetryError`
rendering — an HTTP error (status 500, since that rendering names no
upstream message), never an uncaught exception. -/
theorem c9_error_translation :
    (∀ (S : Settings) (now : Nat) (ups : Upstream) (req : ChatCompletionRequest)
        (st : ServerState),
        (check_rate_limit now st.rate).1 = false →
        (chat_completions S now ups req st).1
          = Outcome.httpError 429 "Azure OpenAI rate limit exceeded")
    ∧ (∀ msg : String,
        ((strContains msg "429" = true ∨ strContains msg "Too Many Requests" = true) →
          handleException msg = Outcome.httpError 429 "Azure OpenAI rate limit exceeded")
        ∧ (strContains msg "429" = false → strContains msg "Too Many Requests" = false →
          handleException msg = Outcome.httpError 500 msg))
    ∧ (∀ (S : Settings) (now : Nat) (ups : Upstream) (req : ChatCompletionRequest)
        (st : ServerState) (e₀ e₁ e₂ : String),
        (check_rate_limit now st.rate).1 = true →
        (get_cached_response (handler_cache_key req) now st.cache).1 = none →
        isStreaming req = false →
        ups.complete (buildParams S req) 0 = .error e₀ →
        ups.complete (buildParams S req) 1 = .error e₁ →
        ups.complete (buildParams S req) 2 = .error e₂ →
        (chat_completions S now ups req st).1 = handleException tenacityRetryErrorStr
        ∧ handleException tenacityRetryErrorStr
            = Outcome.httpError 500 tenacityRetryErrorStr) := by
  refine ⟨fun S now ups req st h => ?_, fun msg => ⟨fun h => ?_, fun h1 h2 => ?_⟩,
          fun S now ups req st e₀ e₁ e₂ hadm hmiss hs h0 h1 h2 => ⟨?_, rfl⟩⟩
  · simp only [chat_completions, h, Bool.false_eq_true, if_false]
    rfl
  · rcases h with h | h <;> simp [handleException, h]
  · simp [handleException, h1, h2]
  · have w1 : waitExponential 1 2 10 1 = 2 := rfl
    have w2 : waitExponential 1 2 10 2 = 2 := rfl
    have hretry : create_chat_completion (ups.complete (buildParams S req))
        = .retryError e₂ 3 [2, 2] := by
      simp [create_chat_completion, retryAux, h0, h1, h2, w1, w2]
    simp [chat_completions, hadm, hmiss, hs, hretry]

/-- Witness for C9: a rejected request at a full window counter gets 429
with the remapped detail; the `except`-arm translation at the concrete
messages "...429..." and "plain failure"; and an admitted request whose
three attempts all fail gets the 500 translation of the `RetryError`
rendering. -/
theorem c9_error_translation_witness :
    (chat_completions ⟨"dep"⟩ 0 streamUps streamReq ⟨⟨[], []⟩, ⟨50, 0⟩⟩).1
      = Outcome.httpError 429 "Azure OpenAI rate limit exceeded"
    ∧ handleException "Error code: 429 - rate limited"
        = Outcome.httpError 429 "Azure OpenAI rate limit exceeded"
    ∧ handleException "plain failure" = Outcome.httpError 500 "plain failure"
    ∧ (chat_completions ⟨"dep"⟩ 0
        ⟨fun _ _ => Except.error "boom", fun _ => Except.ok ([], none)⟩
        { model := "m", messages := [Json.str "hi"] } ⟨⟨[], []⟩, ⟨0, 0⟩⟩).1
        = handleException tenacityRetryErrorStr :=
  ⟨c9_error_translation.1 ⟨"dep"⟩ 0 streamUps streamReq ⟨⟨[], []⟩, ⟨50, 0⟩⟩ rfl,
   (c9_error_translation.2.1 "Error code: 429 - rate limited").1 (Or.inl (by decide)),
   (c9_error_translation.2.1 "plain failure").2 (by decide) (by decide),
   (c9_error_translation.2.2 ⟨"dep"⟩ 0
      ⟨fun _ _ => Except.error "boom", fun _ => Except.ok ([], none)⟩
      { model := "m", messages := [Json.str "hi"] } ⟨⟨[], []⟩, ⟨0, 0⟩⟩
      "boom" "boom" "boom" rfl rfl rfl rfl rfl rfl).1⟩

/-- Claim C10: every upstream invocation the handler makes — streaming or
not, across every retry attempt — carries `model` equal to the configured
deployment identifier, and the parameter dictionary sent upstream is
independent of the client-supplied `model` field (which only enters the
fingerprint). -/
theorem c10_deployment_override :
    (∀ (S : Settings) (now : Nat) (ups : Upstream) (req : ChatCompletionRequest)
        (st : ServerState) (p : Params),
        p ∈ (chat_completions S now ups req st).2.2 →
        p.model = S.azure_openai_deployment)
    ∧ (∀ (S : Settings) (req : ChatCompletionRequest) (m₁ m₂ : String),
        buildParams S { req with model := m₁ } = buildParams S { req with model := m₂ }) := by
  constructor
  · intro S now ups req st p hp
    cases hadm : (check_rate_limit now st.rate).1 with
    | false => simp [chat_completions, hadm] at hp
    | true =>
        cases hlook : (get_cached_response (handler_cache_key req) now st.cache).1 with
        | some r => simp [chat_completions, hadm, hlook] at hp
        | none =>
            cases hs : isStreaming req with
            | true =>
                simp [chat_completions, hadm, hlook, hs] at hp
                rw [hp]
                rfl
            | false =>
                cases hr : create_chat_completion (ups.complete (buildParams S req)) with
                | ok r n w =>
                    simp [chat_completions, hadm, hlook, hs, hr] at hp
                    rw [hp.2]
                    rfl
                | retryError e n w =>
                    simp [chat_completions, hadm, hlook, hs, hr] at hp
                    rw [hp.2]
                    rfl
  · intro S req m₁ m₂
    rfl

/-- Witness for C10: the parameters of the one upstream call of a concrete
admitted streaming request carry the deployment name, not the client's
"m"; and the built parameters are unchanged when the client model varies. -/
theorem c10_deployment_override_witness :
    (buildParams ⟨"dep"⟩ streamReq).model = "dep"
    ∧ buildParams ⟨"dep"⟩ { streamReq with model := "a" }
        = buildParams ⟨"dep"⟩ { streamReq with model := "b" } :=
  ⟨c10_deployment_override.1 ⟨"dep"⟩ 0 streamUps streamReq ⟨⟨[], []⟩, ⟨0, 0⟩⟩
      (buildParams ⟨"dep"⟩ streamReq)
      (by
        have htr : (chat_completions ⟨"dep"⟩ 0 streamUps streamReq ⟨⟨[], []⟩, ⟨0, 0⟩⟩).2.2
            = [buildParams ⟨"dep"⟩ streamReq] := by
          simp [chat_completions, check_rate_limit, get_cached_response, dictGet,
                streamReq, isStreaming]
        rw [htr]
        exact List.mem_singleton.mpr rfl),
   c10_deployment_override.2 ⟨"dep"⟩ streamReq "a" "b"⟩
